import Mathlib

/-!
# gond: an SSH gateway that bridges a session channel to a pty

A shallow embedding of `sshd.go` and `kubecmd.go`.

* Byte buffers (`[]byte`) are lists of `Fin 256`; `uint8`, `uint16` and `uint32`
  arithmetic is arithmetic on `Nat` with an explicit `% 2 ^ w`.
* An index or slice expression that Go checks at run time returns
  `Except Panic _`; code that can stop on a nil pointer returns a `Run`, its
  calls together with the failure that ended it.
* Calls into collaborators (the ssh channel, the pty, the child process, the
  logger) are recorded, in program order, as a list of `Effect`s; the values
  they hand back are fields of an environment record.
-/

namespace Gond

/-! ## Bytes and run-time failures -/

/-- One element of a Go `[]byte`. -/
abbrev Byte := Fin 256

/-- The run-time failures of the embedded code. -/
inductive Panic where
  /-- Failure of `b[i]` when `len(b) ≤ i`. -/
  | indexOutOfRange (index len : Nat)
  /-- Failure of `b[low:]` when `len(b) < low`. -/
  | sliceBoundsOutOfRange (low len : Nat)
  /-- Failure of a method that reads through a nil pointer. -/
  | nilDereference
  deriving DecidableEq, Repr

deriving instance DecidableEq for Except

/-- Go `b[i]` on a byte slice. -/
def index (b : List Byte) (i : Nat) : Except Panic Byte :=
  match b[i]? with
  | some x => .ok x
  | none => .error (.indexOutOfRange i b.length)

/-- Go `b[low:]` on a byte slice. -/
def sliceFrom (b : List Byte) (low : Nat) : Except Panic (List Byte) :=
  if low ≤ b.length then .ok (b.drop low) else .error (.sliceBoundsOutOfRange low b.length)

/-- Go `binary.BigEndian.Uint32`: a bounds check on `b[3]`, then
`uint32(b[3]) | uint32(b[2])<<8 | uint32(b[1])<<16 | uint32(b[0])<<24`. -/
def bigEndianUint32 (b : List Byte) : Except Panic Nat :=
  match b with
  | b0 :: b1 :: b2 :: b3 :: _ =>
    .ok ((b3.val ||| (b2.val <<< 8) % 2 ^ 32 ||| (b1.val <<< 16) % 2 ^ 32
      ||| (b0.val <<< 24) % 2 ^ 32) % 2 ^ 32)
  | _ => .error (.indexOutOfRange 3 b.length)

/-- Go `binary.BigEndian.PutUint32`, as a function producing the four bytes. -/
def putUint32 (v : Nat) : List Byte :=
  [Fin.ofNat (v >>> 24), Fin.ofNat (v >>> 16), Fin.ofNat (v >>> 8), Fin.ofNat v]

/-! ## `parseDims` -/

/-- The function `parseDims` of `sshd.go`: width from `b`, height from `b[4:]`. -/
def parseDims (b : List Byte) : Except Panic (Nat × Nat) := do
  let w ← bigEndianUint32 b
  let b4 ← sliceFrom b 4
  let h ← bigEndianUint32 b4
  return (w, h)

/-! ## `SetWinsize` -/

/-- The struct `Winsize` of `sshd.go`: four `uint16` fields. -/
structure Winsize where
  Height : Nat
  Width : Nat
  x : Nat
  y : Nat
  deriving DecidableEq, Repr

/-- The channel-open rejection reasons of the ssh library. -/
inductive RejectionReason where
  | Prohibited
  | ConnectionFailed
  | UnknownChannelType
  | ResourceShortage
  deriving DecidableEq, Repr

/-- An `exec.Cmd` as built by `exec.Command(name, arg...)`. -/
structure Cmd where
  name : String
  args : List String
  deriving DecidableEq, Repr

/-- The goroutines started by `handleChannel`, in the order of their `go` statements. -/
inductive Task where
  /-- Runs `io.Copy(connection, bashf)` and then `once.Do(close)`. -/
  | copyToConnection
  /-- Runs `io.Copy(bashf, connection)` and then `once.Do(close)`. -/
  | copyToPty
  /-- Runs the loop over `requests`. -/
  | serveRequests
  deriving DecidableEq, Repr

/-- The calls `sshd.go` and `kubecmd.go` make into their collaborators. -/
inductive Effect where
  /-- Call `newChannel.Reject(reason, message)`. -/
  | reject (reason : RejectionReason) (message : String)
  /-- Call `newChannel.Accept()`. -/
  | accept
  /-- Call `log.Printf(format, args...)`. -/
  | logPrintf (format : String) (args : List String)
  /-- Call `log.Print(message)`. -/
  | logPrint (message : String)
  /-- Call `pty.Start(cmd)`; `none` is the nil pointer. -/
  | ptyStart (cmd : Option Cmd)
  /-- Call `connection.Close()`. -/
  | connectionClose
  /-- Call `bash.Process.Wait()`. -/
  | processWait
  /-- Statement `go func() { ... }()`. -/
  | go (task : Task)
  /-- Call `syscall.Syscall(SYS_IOCTL, fd, TIOCSWINSZ, &ws)`. -/
  | ioctlSetWinsize (fd : Nat) (ws : Winsize)
  /-- Call `req.Reply(ok, payload)`; `none` is the nil payload. -/
  | reply (ok : Bool) (payload : Option (List Byte))
  deriving DecidableEq, Repr

/-- The function `SetWinsize` of `sshd.go`: both dimensions are converted to
`uint16`, the two unused fields keep their zero value. -/
def SetWinsize (fd w h : Nat) : List Effect :=
  let ws : Winsize := { Width := w % 2 ^ 16, Height := h % 2 ^ 16, x := 0, y := 0 }
  [.ioctlSetWinsize fd ws]

/-! ## The control-request handler -/

/-- An `ssh.Request` as far as the handler reads it. -/
structure Request where
  type : String
  payload : List Byte
  deriving DecidableEq, Repr

/-- What a piece of code did before it returned or failed. -/
structure Run where
  trace : List Effect
  panic : Option Panic
  deriving DecidableEq, Repr

/-- The decoding of the `"pty-req"` case: `termLen := req.Payload[3]`, then
`parseDims(req.Payload[termLen+4:])`, the sum being a `byte`. -/
def ptyReqDims (payload : List Byte) : Except Panic (Nat × Nat) := do
  let termLen ← index payload 3
  let b ← sliceFrom payload ((termLen.val + 4) % 2 ^ 8)
  parseDims b

/-- The body of the loop `for req := range requests` in `handleChannel`. -/
def handleRequest (fd : Nat) (req : Request) : Run :=
  let logged := [Effect.logPrintf "%v" [req.type]]
  if req.type = "shell" then
    if req.payload.length = 0 then ⟨logged ++ [.reply true none], none⟩ else ⟨logged, none⟩
  else if req.type = "pty-req" then
    match ptyReqDims req.payload with
    | .error p => ⟨logged, some p⟩
    | .ok (w, h) => ⟨logged ++ SetWinsize fd w h ++ [.reply true none], none⟩
  else if req.type = "window-change" then
    match parseDims req.payload with
    | .error p => ⟨logged, some p⟩
    | .ok (w, h) => ⟨logged ++ SetWinsize fd w h, none⟩
  else ⟨logged, none⟩

/-- The calls `req.Reply(ok, payload)` of a trace, in order. -/
def replies : List Effect → List (Bool × Option (List Byte))
  | [] => []
  | .reply ok payload :: rest => (ok, payload) :: replies rest
  | _ :: rest => replies rest

/-- What the ssh library sends back for the `req.Reply` calls of a trace: `Reply`
sends nothing for a request whose `WantReply` is false. The handler never reads
`WantReply`. -/
def transmitted (wantReply : Bool) (trace : List Effect) : List (Bool × Option (List Byte)) :=
  if wantReply then replies trace else []

/-- The window sizes applied in a trace, in order. -/
def resizes : List Effect → List (Nat × Winsize)
  | [] => []
  | .ioctlSetWinsize fd ws :: rest => (fd, ws) :: resizes rest
  | _ :: rest => resizes rest

/-! ## `createKubeCtlCmd` and `handleChannel` -/

/-- What a command resolver hands back: its calls, the `*exec.Cmd` and the error. -/
structure Resolved where
  trace : List Effect
  cmd : Option Cmd
  err : Option String
  deriving DecidableEq, Repr

/-- The function `createKubeCtlCmd` of `kubecmd.go`. -/
def createKubeCtlCmd (uuid : String) : Resolved :=
  { trace := [.logPrintf uuid []]
    cmd := some ⟨"kubectl", ["exec", "-it", "hello-minikube-938614450-z5tbt", "/bin/bash"]⟩
    err := none }

/-- What the collaborators of one `handleChannel` call hand back. -/
structure Env where
  /-- Result of `sshConn.User()`. -/
  user : String
  /-- Result of `newChannel.ChannelType()`. -/
  channelType : String
  /-- Error of `newChannel.Accept()`. -/
  acceptErr : Option String
  /-- Error of `pty.Start(bash)`. -/
  ptyStartErr : Option String
  /-- Result of `bashf.Fd()`. -/
  fd : Nat
  /-- Error of `bash.Process.Wait()`. -/
  waitErr : Option String
  deriving DecidableEq, Repr

/-- The closure `close` of `handleChannel`, the teardown of a session. The
argument `process` tells whether `bash.Process` is set: `pty.Start` sets it when it
succeeds and leaves it nil when it fails. After `connection.Close()` the closure
evaluates `bash.Process.Wait()`, which fails on the nil `bash.Process`; on a
started process it returns `waitErr`. -/
def close (process : Bool) (waitErr : Option String) : Run :=
  if process then
    { trace := [.connectionClose, .processWait]
        ++ (match waitErr with
            | some e => [.logPrintf "Failed to exit bash (%s)" [e]]
            | none => [])
        ++ [.logPrintf "Session closed" []]
      panic := none }
  else
    { trace := [.connectionClose], panic := some .nilDereference }

/-- The state of one session: what `handleChannel` and its goroutines did so far. -/
structure Session where
  /-- Calls made so far, in order. -/
  trace : List Effect
  /-- Whether the three `go` statements were executed. -/
  launched : Bool
  /-- Whether goroutine `copyToConnection` ran to its end. -/
  toConnectionDone : Bool
  /-- Whether goroutine `copyToPty` ran to its end. -/
  toPtyDone : Bool
  /-- The flag of `var once sync.Once`. -/
  onceDone : Bool
  /-- The failure that stopped the process, if any. -/
  crashed : Option Panic
  fd : Nat
  waitErr : Option String
  deriving DecidableEq, Repr

/-- A session in which `handleChannel` returned without starting a goroutine. -/
def returned (env : Env) (trace : List Effect) : Session :=
  { trace := trace, launched := false, toConnectionDone := false, toPtyDone := false,
    onceDone := false, crashed := none, fd := env.fd, waitErr := env.waitErr }

/-- The function `handleChannel` of `sshd.go`. The error of `createKubeCtlCmd` is
assigned to the blank identifier. When `pty.Start` fails, `close()` runs with
`bash.Process` still nil, and what stops `close` stops `handleChannel` before its
`return`. -/
def handleChannel (env : Env) : Session :=
  if env.channelType ≠ "session" then
    returned env [.reject .UnknownChannelType ("unknown channel type: " ++ env.channelType)]
  else
    match env.acceptErr with
    | some e => returned env [.accept, .logPrintf "Could not accept channel (%s)" [e]]
    | none =>
      let bash := createKubeCtlCmd env.user
      let started := [Effect.accept] ++ bash.trace
        ++ [.logPrint "Creating pty...", .ptyStart bash.cmd]
      match env.ptyStartErr with
      | some e =>
        let torn := close false env.waitErr
        { trace := started ++ [.logPrintf "Could not start pty (%s)" [e]] ++ torn.trace
          launched := false, toConnectionDone := false, toPtyDone := false,
          onceDone := false, crashed := torn.panic, fd := env.fd, waitErr := env.waitErr }
      | none =>
        { trace := started ++ [.go .copyToConnection, .go .copyToPty, .go .serveRequests]
          launched := true, toConnectionDone := false, toPtyDone := false,
          onceDone := false, crashed := none, fd := env.fd, waitErr := env.waitErr }

/-! ## The goroutines of a session -/

/-- What can happen in a session after `handleChannel` returned. -/
inductive Event where
  /-- The call `io.Copy(connection, bashf)` returned. -/
  | toConnectionReturned
  /-- The call `io.Copy(bashf, connection)` returned. -/
  | toPtyReturned
  /-- The loop over `requests` received a request. -/
  | request (req : Request)
  deriving DecidableEq, Repr

/-- Go `once.Do(close)`: the first call runs `close`, later calls do nothing. The
copy goroutines exist only after `pty.Start` succeeded, so `bash.Process` is set. -/
def onceDoClose (s : Session) : Session :=
  if s.onceDone then s
  else
    let torn := close true s.waitErr
    { s with onceDone := true, trace := s.trace ++ torn.trace, crashed := torn.panic }

/-- One event of a session. Goroutines exist only after the `go` statements, a
goroutine ends once, and an unrecovered failure stops every goroutine. -/
def step (s : Session) (ev : Event) : Session :=
  if !s.launched || s.crashed.isSome then s
  else
    match ev with
    | .toConnectionReturned =>
      if s.toConnectionDone then s else onceDoClose { s with toConnectionDone := true }
    | .toPtyReturned =>
      if s.toPtyDone then s else onceDoClose { s with toPtyDone := true }
    | .request req =>
      let r := handleRequest s.fd req
      { s with trace := s.trace ++ r.trace, crashed := r.panic }

/-- A session run through a sequence of events. -/
def run (s : Session) (events : List Event) : Session :=
  events.foldl step s

/-- How often the teardown ran: the number of `connection.Close()` calls, the
first statement of `close`, which only `close` makes. -/
def teardownCount (s : Session) : Nat :=
  s.trace.count .connectionClose

/-! ## The public-key callback -/

/-- The alphabet of `base64.StdEncoding`. -/
def encodeStd : List Char :=
  "ABCDEFGHIJKLMNOPQRSTUVWXYZabcdefghijklmnopqrstuvwxyz0123456789+/".toList

/-- The character of a 6-bit value in `base64.StdEncoding`. -/
def encodeStdChar (v : Nat) : Char :=
  encodeStd.getD (v &&& 0x3F) 'A'

/-- Go `base64.StdEncoding.EncodeToString`: three bytes become four characters,
a remainder of one or two bytes is padded with `=`. -/
def encodeToChars : List Byte → List Char
  | [] => []
  | [a] =>
    let v := a.val <<< 16
    [encodeStdChar (v >>> 18), encodeStdChar (v >>> 12), '=', '=']
  | [a, b] =>
    let v := a.val <<< 16 ||| b.val <<< 8
    [encodeStdChar (v >>> 18), encodeStdChar (v >>> 12), encodeStdChar (v >>> 6), '=']
  | a :: b :: c :: rest =>
    let v := a.val <<< 16 ||| b.val <<< 8 ||| c.val
    [encodeStdChar (v >>> 18), encodeStdChar (v >>> 12), encodeStdChar (v >>> 6),
      encodeStdChar v] ++ encodeToChars rest

/-- Go `base64.StdEncoding.EncodeToString`. -/
def encodeToString (src : List Byte) : String :=
  String.mk (encodeToChars src)

/-- What the callback did: the calls to `verifyUUIDPubKey` and the two results. -/
structure CallbackResult where
  /-- Arguments of each call to `verifyUUIDPubKey`, in order. -/
  verifyCalls : List (String × String)
  /-- The returned `*ssh.Permissions`; `none` is nil. -/
  permissions : Option Unit
  /-- The returned error; `none` is nil. -/
  err : Option String
  deriving DecidableEq, Repr

/-- The `PublicKeyCallback` of `main`. `verifyUUIDPubKey` is declared outside the
two source files and is an argument; `user` is `c.User()` and `marshaled` is
`key.Marshal()`. -/
def PublicKeyCallback (verifyUUIDPubKey : String → String → Option String)
    (user : String) (marshaled : List Byte) : CallbackResult :=
  let uuid := user
  let pubKeyStr := encodeToString marshaled
  { verifyCalls := [(uuid, pubKeyStr)], permissions := none,
    err := verifyUUIDPubKey uuid pubKeyStr }

/-- The big-endian value of four bytes. -/
def be32 (b0 b1 b2 b3 : Byte) : Nat :=
  b0.val * 2 ^ 24 + b1.val * 2 ^ 16 + b2.val * 2 ^ 8 + b3.val

/-! ## Definitions used in the statements -/

/-- What holds of a session at every moment: without goroutines the teardown ran
at most once and no copy ended; with goroutines it ran as often as `once` says. -/
def Inv (s : Session) : Prop :=
  (s.launched = false ∧ teardownCount s ≤ 1 ∧ s.toConnectionDone = false
      ∧ s.toPtyDone = false) ∨
  (s.launched = true ∧ s.onceDone = false ∧ teardownCount s = 0
      ∧ s.toConnectionDone = false ∧ s.toPtyDone = false) ∨
  (s.launched = true ∧ s.onceDone = true ∧ teardownCount s = 1)

/-- A `"pty-req"` payload whose terminal name is 252 bytes long: four length
bytes, the name, then width 80 and height 24. -/
def longTermPayload : List Byte :=
  [0, 0, 0, 252] ++ List.replicate 252 120 ++ putUint32 80 ++ putUint32 24

/-! ## Lemmas on the decoder -/

theorem or_shift_eq_be32 (b0 b1 b2 b3 : Byte) :
    (b3.val ||| (b2.val <<< 8) % 2 ^ 32 ||| (b1.val <<< 16) % 2 ^ 32
      ||| (b0.val <<< 24) % 2 ^ 32) % 2 ^ 32 = be32 b0 b1 b2 b3 := by
  have h0 := b0.isLt
  have h1 := b1.isLt
  have h2 := b2.isLt
  have h3 := b3.isLt
  have e2 : (b2.val <<< 8) % 2 ^ 32 = 2 ^ 8 * b2.val := by
    rw [Nat.shiftLeft_eq]; omega
  have e1 : (b1.val <<< 16) % 2 ^ 32 = 2 ^ 16 * b1.val := by
    rw [Nat.shiftLeft_eq]; omega
  have e0 : (b0.val <<< 24) % 2 ^ 32 = 2 ^ 24 * b0.val := by
    rw [Nat.shiftLeft_eq]; omega
  rw [e2, e1, e0]
  have s1 : b3.val ||| 2 ^ 8 * b2.val = 2 ^ 8 * b2.val + b3.val := by
    rw [Nat.or_comm]
    exact (Nat.mul_add_lt_is_or (by omega) _).symm
  have s2 : 2 ^ 8 * b2.val + b3.val ||| 2 ^ 16 * b1.val
      = 2 ^ 16 * b1.val + (2 ^ 8 * b2.val + b3.val) := by
    rw [Nat.or_comm]
    exact (Nat.mul_add_lt_is_or (by omega) _).symm
  have s3 : 2 ^ 16 * b1.val + (2 ^ 8 * b2.val + b3.val) ||| 2 ^ 24 * b0.val
      = 2 ^ 24 * b0.val + (2 ^ 16 * b1.val + (2 ^ 8 * b2.val + b3.val)) := by
    rw [Nat.or_comm]
    exact (Nat.mul_add_lt_is_or (by omega) _).symm
  rw [s1, s2, s3]
  unfold be32
  omega

theorem bigEndianUint32_cons4 (b0 b1 b2 b3 : Byte) (rest : List Byte) :
    bigEndianUint32 (b0 :: b1 :: b2 :: b3 :: rest) = .ok (be32 b0 b1 b2 b3) := by
  simp only [bigEndianUint32, or_shift_eq_be32]

theorem parseDims_cons8 (b0 b1 b2 b3 b4 b5 b6 b7 : Byte) (rest : List Byte) :
    parseDims (b0 :: b1 :: b2 :: b3 :: b4 :: b5 :: b6 :: b7 :: rest)
      = .ok (be32 b0 b1 b2 b3, be32 b4 b5 b6 b7) := by
  simp [parseDims, sliceFrom, bigEndianUint32_cons4, bind, Except.bind, pure, Except.pure]

theorem be32_putUint32 (v : Nat) (hv : v < 2 ^ 32) :
    be32 (Fin.ofNat (v >>> 24)) (Fin.ofNat (v >>> 16)) (Fin.ofNat (v >>> 8)) (Fin.ofNat v)
      = v := by
  simp only [be32, Fin.ofNat, Nat.shiftRight_eq_div_pow]
  omega

theorem parseDims_putUint32 (w h : Nat) (rest : List Byte) (hw : w < 2 ^ 32)
    (hh : h < 2 ^ 32) : parseDims (putUint32 w ++ putUint32 h ++ rest) = .ok (w, h) := by
  simp only [putUint32, List.cons_append, List.nil_append, parseDims_cons8,
    be32_putUint32 w hw, be32_putUint32 h hh]

theorem parseDims_short (b : List Byte) (hb : b.length < 8) :
    ∃ e, parseDims b = .error e := by
  rcases b with _ | ⟨b0, _ | ⟨b1, _ | ⟨b2, _ | ⟨b3, _ | ⟨b4, _ | ⟨b5, _ | ⟨b6, _ | ⟨b7, r⟩⟩⟩⟩⟩⟩⟩⟩
  all_goals first
    | (simp at hb; omega)
    | simp [parseDims, sliceFrom, bigEndianUint32, bind, Except.bind]

theorem parseDims_long (b : List Byte) (hb : 8 ≤ b.length) :
    ∃ b0 b1 b2 b3 b4 b5 b6 b7 rest, b = b0 :: b1 :: b2 :: b3 :: b4 :: b5 :: b6 :: b7 :: rest := by
  rcases b with _ | ⟨b0, _ | ⟨b1, _ | ⟨b2, _ | ⟨b3, _ | ⟨b4, _ | ⟨b5, _ | ⟨b6, _ | ⟨b7, r⟩⟩⟩⟩⟩⟩⟩⟩
  all_goals first
    | (simp at hb; done)
    | exact ⟨_, _, _, _, _, _, _, _, _, rfl⟩

theorem parseDims_ok_iff (b : List Byte) : (∃ d, parseDims b = .ok d) ↔ 8 ≤ b.length := by
  constructor
  · rintro ⟨d, hd⟩
    by_contra hlt
    obtain ⟨e, he⟩ := parseDims_short b (by omega)
    rw [he] at hd
    cases hd
  · intro hb
    obtain ⟨b0, b1, b2, b3, b4, b5, b6, b7, rest, rfl⟩ := parseDims_long b hb
    exact ⟨_, parseDims_cons8 ..⟩

theorem ptyReqDims_short (p : List Byte) (hp : p.length < 4) :
    ptyReqDims p = .error (.indexOutOfRange 3 p.length) := by
  have h3 : p[3]? = none := List.getElem?_eq_none (by omega)
  simp [ptyReqDims, index, h3, bind, Except.bind]

theorem ptyReqDims_eq (p : List Byte) (hp : 4 ≤ p.length) :
    ptyReqDims p
      = sliceFrom p (((p.getD 3 0).val + 4) % 2 ^ 8) >>= parseDims := by
  have h3 : p[3]? = some (p[3]) := List.getElem?_eq_getElem (by omega)
  have hd : p.getD 3 0 = p[3] := by
    rw [List.getD_eq_getElem?_getD, h3]
    rfl
  rw [hd]
  simp only [ptyReqDims, index, h3, bind, Except.bind]

theorem ptyReqDims_ok_iff (p : List Byte) :
    (∃ d, ptyReqDims p = .ok d) ↔ 8 + ((p.getD 3 0).val + 4) % 2 ^ 8 ≤ p.length := by
  by_cases hp : p.length < 4
  · rw [ptyReqDims_short p hp]
    constructor
    · rintro ⟨d, hd⟩
      cases hd
    · intro h
      omega
  · rw [ptyReqDims_eq p (by omega)]
    generalize ((p.getD 3 0).val + 4) % 2 ^ 8 = off
    by_cases ho : off ≤ p.length
    · have hs : sliceFrom p off = .ok (p.drop off) := by simp [sliceFrom, ho]
      rw [hs]
      show (∃ d, parseDims (p.drop off) = .ok d) ↔ _
      rw [parseDims_ok_iff, List.length_drop]
      omega
    · have hs : sliceFrom p off = .error (.sliceBoundsOutOfRange off p.length) := by
        simp [sliceFrom, ho]
      rw [hs]
      constructor
      · rintro ⟨d, hd⟩
        cases hd
      · intro h
        omega

theorem ptyReqDims_eq_drop (p : List Byte) (t : Byte) (h3 : p[3]? = some t)
    (ht : t.val ≤ 251) (hp : 4 + t.val ≤ p.length) :
    ptyReqDims p = parseDims (p.drop (4 + t.val)) := by
  have e : (t.val + 4) % 2 ^ 8 = 4 + t.val := by omega
  simp only [ptyReqDims, index, h3, bind, Except.bind, e, sliceFrom, hp, if_true]

theorem handleRequest_windowChange (fd : Nat) (p : List Byte) (w h : Nat)
    (hd : parseDims p = .ok (w, h)) :
    handleRequest fd ⟨"window-change", p⟩
      = ⟨[.logPrintf "%v" ["window-change"],
          .ioctlSetWinsize fd ⟨h % 2 ^ 16, w % 2 ^ 16, 0, 0⟩], none⟩ := by
  simp [handleRequest, hd, SetWinsize]

theorem handleRequest_ptyReq (fd : Nat) (p : List Byte) (w h : Nat)
    (hd : ptyReqDims p = .ok (w, h)) :
    handleRequest fd ⟨"pty-req", p⟩
      = ⟨[.logPrintf "%v" ["pty-req"],
          .ioctlSetWinsize fd ⟨h % 2 ^ 16, w % 2 ^ 16, 0, 0⟩, .reply true none], none⟩ := by
  simp [handleRequest, hd, SetWinsize]

theorem handleRequest_ptyReq_error (fd : Nat) (p : List Byte) (e : Panic)
    (hd : ptyReqDims p = .error e) :
    handleRequest fd ⟨"pty-req", p⟩ = ⟨[.logPrintf "%v" ["pty-req"]], some e⟩ := by
  simp [handleRequest, hd]

/-! ## Lemmas on sessions -/

theorem step_not_launched (s : Session) (ev : Event) (h : s.launched = false) :
    step s ev = s := by
  simp [step, h]

theorem run_not_launched (s : Session) (events : List Event) (h : s.launched = false) :
    run s events = s := by
  induction events with
  | nil => rfl
  | cons ev rest ih =>
    show run (step s ev) rest = s
    rw [step_not_launched s ev h]
    exact ih

theorem count_close (process : Bool) (waitErr : Option String) :
    (close process waitErr).trace.count .connectionClose = 1 := by
  cases process <;> cases waitErr <;> simp [close, List.count_cons]

theorem close_started_panic (waitErr : Option String) : (close true waitErr).panic = none := by
  simp [close]

theorem count_handleRequest (fd : Nat) (req : Request) :
    (handleRequest fd req).trace.count .connectionClose = 0 := by
  unfold handleRequest SetWinsize
  repeat' split
  all_goals simp [List.count_cons]

theorem Inv_handleChannel (env : Env) : Inv (handleChannel env) := by
  unfold handleChannel
  split
  · exact Or.inl ⟨rfl, by simp [teardownCount, returned, List.count_cons], rfl, rfl⟩
  · split
    · exact Or.inl ⟨rfl, by simp [teardownCount, returned, List.count_cons], rfl, rfl⟩
    · split
      · refine Or.inl ⟨rfl, ?_, rfl, rfl⟩
        simp [teardownCount, returned, createKubeCtlCmd, count_close, List.count_cons]
      · refine Or.inr (Or.inl ⟨rfl, rfl, ?_, rfl, rfl⟩)
        simp [teardownCount, createKubeCtlCmd, List.count_cons]

theorem Inv_step (s : Session) (ev : Event) (h : Inv s) : Inv (step s ev) := by
  by_cases hl : s.launched = false
  · rw [step_not_launched s ev hl]
    exact h
  by_cases hc : s.crashed.isSome = true
  · have : step s ev = s := by simp [step, hc]
    rw [this]
    exact h
  have hl1 : s.launched = true := by simpa using hl
  rcases h with ⟨h0, -⟩ | ⟨-, ho, hn, hd1, hd2⟩ | ⟨-, ho, hn⟩
  · exact absurd h0 hl
  · cases ev with
    | toConnectionReturned =>
      refine Or.inr (Or.inr ?_)
      simp [step, hl1, hc, hd1, onceDoClose, ho, teardownCount, count_close]
      simpa [teardownCount] using hn
    | toPtyReturned =>
      refine Or.inr (Or.inr ?_)
      simp [step, hl1, hc, hd2, onceDoClose, ho, teardownCount, count_close]
      simpa [teardownCount] using hn
    | request req =>
      refine Or.inr (Or.inl ?_)
      simp [step, hl1, hc, ho, hd1, hd2, teardownCount, count_handleRequest]
      simpa [teardownCount] using hn
  · refine Or.inr (Or.inr ?_)
    cases ev with
    | toConnectionReturned =>
      by_cases hd : s.toConnectionDone = true
      · simp [step, hl1, hc, hd, ho, hn]
      · simp [step, hl1, hc, hd, onceDoClose, ho, hn, teardownCount]
        simpa [teardownCount] using hn
    | toPtyReturned =>
      by_cases hd : s.toPtyDone = true
      · simp [step, hl1, hc, hd, ho, hn]
      · simp [step, hl1, hc, hd, onceDoClose, ho, hn, teardownCount]
        simpa [teardownCount] using hn
    | request req =>
      simp [step, hl1, hc, ho, teardownCount, count_handleRequest]
      simpa [teardownCount] using hn

theorem handleChannel_of_ptyStart_error (env : Env) (e : String)
    (ht : env.channelType = "session") (ha : env.acceptErr = none)
    (hp : env.ptyStartErr = some e) :
    handleChannel env
      = { trace := [.accept, .logPrintf env.user [], .logPrint "Creating pty...",
            .ptyStart (createKubeCtlCmd env.user).cmd,
            .logPrintf "Could not start pty (%s)" [e], .connectionClose]
          launched := false, toConnectionDone := false, toPtyDone := false,
          onceDone := false, crashed := some .nilDereference, fd := env.fd,
          waitErr := env.waitErr } := by
  simp [handleChannel, ht, ha, hp, createKubeCtlCmd, close]

theorem createKubeCtlCmd_err (uuid : String) : (createKubeCtlCmd uuid).err = none := rfl

theorem Inv_run (s : Session) (events : List Event) (h : Inv s) : Inv (run s events) := by
  induction events generalizing s with
  | nil => exact h
  | cons ev rest ih => exact ih (step s ev) (Inv_step s ev h)

theorem ptyReqDims_encoded (l0 l1 l2 t : Byte) (name rest : List Byte) (w h : Nat)
    (hn : name.length = t.val) (ht : t.val ≤ 251) (hw : w < 2 ^ 32) (hh : h < 2 ^ 32) :
    ptyReqDims (l0 :: l1 :: l2 :: t :: (name ++ (putUint32 w ++ putUint32 h ++ rest)))
      = .ok (w, h) := by
  rw [ptyReqDims_eq_drop _ t (by simp) ht (by simp; omega)]
  have e : 4 + t.val = name.length + 1 + 1 + 1 + 1 := by omega
  rw [e]
  simp only [List.drop_succ_cons, List.drop_left]
  exact parseDims_putUint32 w h rest hw hh

theorem encodeToString_rfc4648 :
    encodeToString [102] = "Zg==" ∧ encodeToString [102, 111] = "Zm8=" ∧
    encodeToString [102, 111, 111] = "Zm9v" ∧
    encodeToString [102, 111, 111, 98, 97, 114] = "Zm9vYmFy" ∧
    encodeToString [255, 254, 253, 252] = "//79/A==" := by
  decide

/-! ## Decoding of terminal dimensions -/


set_option maxRecDepth 20000 in
/-- C1 (evaluation at a failing input): the payload `longTermPayload` is
`4 + 252 + 8` bytes long, its byte 3 is 252 and it carries width 80 and height 24
from offset `4 + 252` on, but the `"pty-req"` case computes the offset
`252 + 4` as a byte, which is 0, and decodes width 252 and height 2021161080
from the first eight bytes. -/
theorem ptyReqDims_longTermPayload :
    longTermPayload.length = 4 + 252 + 8 ∧
    longTermPayload[3]? = some 252 ∧
    longTermPayload.drop (4 + 252) = putUint32 80 ++ putUint32 24 ∧
    ptyReqDims longTermPayload = .ok (252, 2021161080) ∧
    resizes (handleRequest 3 ⟨"pty-req", longTermPayload⟩).trace
      = [(3, ⟨30840, 252, 0, 0⟩)] :=
  ⟨by rfl, by rfl, by rfl, by rfl, by rfl⟩

/-- C2: on a buffer of at least eight bytes `parseDims` returns the big-endian
value of bytes 0 to 3 as width and of bytes 4 to 7 as height, whatever follows
the eighth byte; so a buffer that starts with a 32-bit width and a 32-bit height
in big-endian order decodes to that width and height. -/
theorem parseDims_bigEndian (b : List Byte) (hb : 8 ≤ b.length) :
    parseDims b
      = .ok (b[0].val * 2 ^ 24 + b[1].val * 2 ^ 16 + b[2].val * 2 ^ 8 + b[3].val,
             b[4].val * 2 ^ 24 + b[5].val * 2 ^ 16 + b[6].val * 2 ^ 8 + b[7].val) ∧
    (∀ rest, parseDims (b.take 8 ++ rest) = parseDims b) ∧
    (∀ w h rest, w < 2 ^ 32 → h < 2 ^ 32 →
      parseDims (putUint32 w ++ putUint32 h ++ rest) = .ok (w, h)) := by
  obtain ⟨b0, b1, b2, b3, b4, b5, b6, b7, rest, rfl⟩ := parseDims_long b hb
  refine ⟨?_, ?_, ?_⟩
  · rw [parseDims_cons8]
    rfl
  · intro rest2
    simp only [List.take, List.cons_append, List.nil_append, parseDims_cons8]
  · intro w h rest2 hw hh
    exact parseDims_putUint32 w h rest2 hw hh

/-- C2 at width 132 and height 43. -/
theorem parseDims_bigEndian_witness :
    8 ≤ (putUint32 132 ++ putUint32 43).length ∧
    parseDims (putUint32 132 ++ putUint32 43) = .ok (132, 43) :=
  ⟨by decide, by
    rw [(parseDims_bigEndian (putUint32 132 ++ putUint32 43) (by decide)).1]
    decide⟩

/-- C10: the `"pty-req"` case decodes without a run-time failure exactly when the
payload has at least `8 + ((p[3] + 4) mod 256)` bytes (a payload without byte 3 is
shorter than that); on every other payload the handler stops with an
out-of-range failure after its log line, having applied no size and sent no
reply. `parseDims` decodes without failure exactly on buffers of at least eight
bytes. -/
theorem ptyReq_decodes_iff (p : List Byte) :
    ((∃ d, ptyReqDims p = .ok d) ↔ 8 + ((p.getD 3 0).val + 4) % 2 ^ 8 ≤ p.length) ∧
    (p.length < 4 → ¬ 8 + ((p.getD 3 0).val + 4) % 2 ^ 8 ≤ p.length) ∧
    (¬ 8 + ((p.getD 3 0).val + 4) % 2 ^ 8 ≤ p.length →
      ∀ fd, ∃ e, handleRequest fd ⟨"pty-req", p⟩ = ⟨[.logPrintf "%v" ["pty-req"]], some e⟩
        ∧ resizes (handleRequest fd ⟨"pty-req", p⟩).trace = []
        ∧ replies (handleRequest fd ⟨"pty-req", p⟩).trace = []) ∧
    (∀ b, (∃ d, parseDims b = .ok d) ↔ 8 ≤ b.length) := by
  refine ⟨ptyReqDims_ok_iff p, fun h => by omega, ?_, parseDims_ok_iff⟩
  intro hlen fd
  have hno : ¬ ∃ d, ptyReqDims p = .ok d := fun h => hlen ((ptyReqDims_ok_iff p).1 h)
  cases hd : ptyReqDims p with
  | ok d => exact absurd ⟨d, hd⟩ hno
  | error e =>
    refine ⟨e, handleRequest_ptyReq_error fd p e hd, ?_, ?_⟩
    · rw [handleRequest_ptyReq_error fd p e hd]
      rfl
    · rw [handleRequest_ptyReq_error fd p e hd]
      rfl

/-- C10 at the payload `[0, 0, 0, 1, 120]` followed by a width only: the offset is
5, the payload has 9 bytes instead of 13, and the handler stops. -/
theorem ptyReq_decodes_iff_witness :
    ∃ e, handleRequest 3 ⟨"pty-req", [0, 0, 0, 1, 120] ++ putUint32 80⟩
        = ⟨[.logPrintf "%v" ["pty-req"]], some e⟩
      ∧ resizes (handleRequest 3 ⟨"pty-req", [0, 0, 0, 1, 120] ++ putUint32 80⟩).trace = []
      ∧ replies (handleRequest 3 ⟨"pty-req", [0, 0, 0, 1, 120] ++ putUint32 80⟩).trace = [] :=
  (ptyReq_decodes_iff ([0, 0, 0, 1, 120] ++ putUint32 80)).2.2.1 (by decide) 3

/-! ## Applying a window size -/

/-- C8 (counterexample): a `"window-change"` payload that encodes width 65536 and
height 24 decodes to `(65536, 24)`, but the size applied has `Width = 0`. -/
theorem SetWinsize_width_65536 :
    parseDims (putUint32 65536 ++ putUint32 24) = .ok (65536, 24) ∧
    resizes (handleRequest 3 ⟨"window-change", putUint32 65536 ++ putUint32 24⟩).trace
      = [(3, ⟨24, 0, 0, 0⟩)] := by
  decide

/-- C8 (amended): the size applied for decoded dimensions `(w, h)` has
`Width = w mod 2^16` and `Height = h mod 2^16` and both unused fields 0, for a
`"window-change"` payload that encodes `(w, h)` at offset 0 and for the dimensions
decoded from a `"pty-req"`; it is `(w, h)` itself exactly when both are below
`2^16`. -/
theorem SetWinsize_applies_uint16 (fd w h : Nat) (rest : List Byte)
    (hw : w < 2 ^ 32) (hh : h < 2 ^ 32) :
    SetWinsize fd w h = [.ioctlSetWinsize fd ⟨h % 2 ^ 16, w % 2 ^ 16, 0, 0⟩] ∧
    resizes (handleRequest fd ⟨"window-change", putUint32 w ++ putUint32 h ++ rest⟩).trace
      = [(fd, ⟨h % 2 ^ 16, w % 2 ^ 16, 0, 0⟩)] ∧
    (∀ p, ptyReqDims p = .ok (w, h) →
      resizes (handleRequest fd ⟨"pty-req", p⟩).trace
        = [(fd, ⟨h % 2 ^ 16, w % 2 ^ 16, 0, 0⟩)]) ∧
    ((⟨h % 2 ^ 16, w % 2 ^ 16, 0, 0⟩ : Winsize) = ⟨h, w, 0, 0⟩ ↔ w < 2 ^ 16 ∧ h < 2 ^ 16) := by
  refine ⟨rfl, ?_, ?_, ?_⟩
  · rw [handleRequest_windowChange fd _ w h (parseDims_putUint32 w h rest hw hh)]
    rfl
  · intro p hp
    rw [handleRequest_ptyReq fd p w h hp]
    rfl
  · rw [Winsize.mk.injEq]
    constructor
    · rintro ⟨h1, h2, -, -⟩
      exact ⟨by omega, by omega⟩
    · rintro ⟨h1, h2⟩
      exact ⟨Nat.mod_eq_of_lt h2, Nat.mod_eq_of_lt h1, rfl, rfl⟩

/-- C8 (amended) at width 70000 and height 24: the applied width is 4464. -/
theorem SetWinsize_applies_uint16_witness :
    resizes (handleRequest 3 ⟨"window-change", putUint32 70000 ++ putUint32 24 ++ []⟩).trace
      = [(3, ⟨24 % 2 ^ 16, 70000 % 2 ^ 16, 0, 0⟩)] :=
  (SetWinsize_applies_uint16 3 70000 24 [] (by decide) (by decide)).2.1

/-! ## Replies to control requests -/

/-- C4: for a control request whose payload is long enough to be decoded when
its type calls for decoding (`"pty-req"`: at least `8 + ((p[3] + 4) mod 256)`
bytes, `"window-change"`: at least 8 bytes), the handler does not fail and calls
`req.Reply` exactly when the request is a `"shell"` request with an empty payload
or a `"pty-req"` request, and the call is then the single `req.Reply(true, nil)`,
which is what a request that asks for a reply is sent. A `"shell"` request with a
payload, a `"window-change"` request and a request of any other type get no call
and are sent nothing. -/
theorem handleRequest_replies (fd : Nat) (req : Request) (wantReply : Bool)
    (hpty : req.type = "pty-req" →
      8 + ((req.payload.getD 3 0).val + 4) % 2 ^ 8 ≤ req.payload.length)
    (hwin : req.type = "window-change" → 8 ≤ req.payload.length) :
    (handleRequest fd req).panic = none ∧
    (replies (handleRequest fd req).trace
      = if (req.type = "shell" ∧ req.payload = []) ∨ req.type = "pty-req"
        then [(true, none)] else []) ∧
    (wantReply = true →
      transmitted wantReply (handleRequest fd req).trace
        = if (req.type = "shell" ∧ req.payload = []) ∨ req.type = "pty-req"
          then [(true, none)] else []) ∧
    (req.type = "shell" → req.payload = [] →
      replies (handleRequest fd req).trace = [(true, none)]) ∧
    (req.type = "pty-req" → replies (handleRequest fd req).trace = [(true, none)]) ∧
    (req.type = "shell" → req.payload ≠ [] →
      replies (handleRequest fd req).trace = []
        ∧ transmitted wantReply (handleRequest fd req).trace = []) ∧
    (req.type = "window-change" →
      replies (handleRequest fd req).trace = []
        ∧ transmitted wantReply (handleRequest fd req).trace = []) ∧
    (req.type ≠ "shell" → req.type ≠ "pty-req" →
      replies (handleRequest fd req).trace = []
        ∧ transmitted wantReply (handleRequest fd req).trace = []) := by
  have main : (handleRequest fd req).panic = none ∧ replies (handleRequest fd req).trace
      = if (req.type = "shell" ∧ req.payload = []) ∨ req.type = "pty-req"
        then [(true, none)] else [] := by
    obtain ⟨ty, payload⟩ := req
    by_cases h1 : ty = "shell"
    · subst h1
      by_cases h2 : payload = []
      · subst h2
        exact ⟨rfl, rfl⟩
      · have h3 : payload.length ≠ 0 := fun h => h2 (List.length_eq_zero.1 h)
        simp [handleRequest, h2, h3, replies]
    · by_cases h2 : ty = "pty-req"
      · subst h2
        obtain ⟨⟨w, h⟩, hd⟩ := (ptyReqDims_ok_iff payload).2 (hpty rfl)
        rw [handleRequest_ptyReq fd payload w h hd]
        exact ⟨rfl, rfl⟩
      · by_cases h3 : ty = "window-change"
        · subst h3
          obtain ⟨⟨w, h⟩, hd⟩ := (parseDims_ok_iff payload).2 (hwin rfl)
          rw [handleRequest_windowChange fd payload w h hd]
          exact ⟨rfl, rfl⟩
        · simp [handleRequest, h1, h2, h3, replies]
  obtain ⟨hpanic, hrep⟩ := main
  have none_of : ¬ ((req.type = "shell" ∧ req.payload = []) ∨ req.type = "pty-req") →
      replies (handleRequest fd req).trace = []
        ∧ transmitted wantReply (handleRequest fd req).trace = [] := by
    intro hc
    have e : replies (handleRequest fd req).trace = [] := by rw [hrep, if_neg hc]
    refine ⟨e, ?_⟩
    unfold transmitted
    rw [e]
    simp
  refine ⟨hpanic, hrep, ?_, ?_, ?_, ?_, ?_, ?_⟩
  · intro hw
    unfold transmitted
    rw [if_pos hw, hrep]
  · intro h1 h2
    rw [hrep, if_pos (Or.inl ⟨h1, h2⟩)]
  · intro h1
    rw [hrep, if_pos (Or.inr h1)]
  · intro h1 h2
    apply none_of
    rintro (⟨-, h⟩ | h)
    · exact h2 h
    · rw [h1] at h
      exact absurd h (by decide)
  · intro h1
    apply none_of
    rintro (⟨h, -⟩ | h)
    · rw [h1] at h
      exact absurd h (by decide)
    · rw [h1] at h
      exact absurd h (by decide)
  · intro h1 h2
    apply none_of
    rintro (⟨h, -⟩ | h)
    · exact h1 h
    · exact h2 h

/-- C4 at three requests that ask for a reply: a `"shell"` request with an empty
payload and a `"pty-req"` for an 80 by 24 terminal named `x` are answered with
`(true, nil)`, a `"shell"` request that carries the command `ls` is not answered. -/
theorem handleRequest_replies_witness :
    ((handleRequest 3 ⟨"shell", []⟩).panic = none
      ∧ replies (handleRequest 3 ⟨"shell", []⟩).trace = [(true, none)]) ∧
    ((handleRequest 3 ⟨"pty-req", [0, 0, 0, 1, 120] ++ putUint32 80 ++ putUint32 24⟩).panic
        = none
      ∧ replies (handleRequest 3
          ⟨"pty-req", [0, 0, 0, 1, 120] ++ putUint32 80 ++ putUint32 24⟩).trace
        = [(true, none)]) ∧
    (replies (handleRequest 3 ⟨"shell", [0, 0, 0, 2, 108, 115]⟩).trace = []
      ∧ transmitted true (handleRequest 3 ⟨"shell", [0, 0, 0, 2, 108, 115]⟩).trace = []) :=
  ⟨⟨(handleRequest_replies 3 ⟨"shell", []⟩ true (by decide) (by decide)).1,
    (handleRequest_replies 3 ⟨"shell", []⟩ true (by decide) (by decide)).2.2.2.1 rfl rfl⟩,
   ⟨(handleRequest_replies 3 ⟨"pty-req", [0, 0, 0, 1, 120] ++ putUint32 80 ++ putUint32 24⟩
      true (by decide) (by decide)).1,
    (handleRequest_replies 3 ⟨"pty-req", [0, 0, 0, 1, 120] ++ putUint32 80 ++ putUint32 24⟩
      true (by decide) (by decide)).2.2.2.2.1 rfl⟩,
   (handleRequest_replies 3 ⟨"shell", [0, 0, 0, 2, 108, 115]⟩ true (by decide)
      (by decide)).2.2.2.2.2.1 rfl (by decide)⟩

/-! ## Channel-open requests -/

/-- C3: a channel-open request of a type other than `"session"` is rejected with
reason `UnknownChannelType` and the message `"unknown channel type: "` followed by
the type, and that call is all `handleChannel` does: no accept, no resolver call,
no `pty.Start`, no goroutine, and no later event changes the session. A request
of type `"session"` is not rejected. -/
theorem handleChannel_rejects_other_types (env : Env) :
    (env.channelType ≠ "session" →
      (handleChannel env).trace
          = [.reject .UnknownChannelType ("unknown channel type: " ++ env.channelType)]
        ∧ (handleChannel env).launched = false
        ∧ ∀ events, run (handleChannel env) events = handleChannel env) ∧
    (env.channelType = "session" →
      ∀ reason message, Effect.reject reason message ∉ (handleChannel env).trace) := by
  constructor
  · intro ht
    have e : handleChannel env = returned env
        [.reject .UnknownChannelType ("unknown channel type: " ++ env.channelType)] := by
      simp [handleChannel, ht]
    refine ⟨by rw [e]; rfl, by rw [e]; rfl, ?_⟩
    intro events
    exact run_not_launched _ events (by rw [e]; rfl)
  · intro ht reason message
    unfold handleChannel
    rw [if_neg (by simp [ht])]
    cases env.acceptErr <;> cases env.ptyStartErr <;> cases env.waitErr <;>
      simp [returned, createKubeCtlCmd, close]

/-- C3 at channel type `"x11"`. -/
theorem handleChannel_rejects_other_types_witness :
    (handleChannel ⟨"alice", "x11", none, none, 3, none⟩).trace
        = [.reject .UnknownChannelType ("unknown channel type: " ++ "x11")]
      ∧ (handleChannel ⟨"alice", "x11", none, none, 3, none⟩).launched = false
      ∧ ∀ events, run (handleChannel ⟨"alice", "x11", none, none, 3, none⟩) events
          = handleChannel ⟨"alice", "x11", none, none, 3, none⟩ :=
  (handleChannel_rejects_other_types ⟨"alice", "x11", none, none, 3, none⟩).1 (by decide)

/-! ## Teardown -/

/-- C5: whatever `handleChannel` met and in whatever order the two copies end and
requests arrive afterwards, the teardown ran at most once; once both copy
goroutines have ended it ran exactly once; and `once.Do(close)` on a `once` that
already fired changes nothing. -/
theorem teardown_at_most_once (env : Env) (events : List Event) :
    teardownCount (run (handleChannel env) events) ≤ 1 ∧
    ((run (handleChannel env) events).toConnectionDone = true →
      (run (handleChannel env) events).toPtyDone = true →
      teardownCount (run (handleChannel env) events) = 1) ∧
    (∀ s : Session, s.onceDone = true → onceDoClose s = s) := by
  have h := Inv_run (handleChannel env) events (Inv_handleChannel env)
  refine ⟨?_, ?_, ?_⟩
  · rcases h with ⟨-, h, -⟩ | ⟨-, -, h, -⟩ | ⟨-, -, h⟩ <;> omega
  · intro h1 h2
    rcases h with ⟨-, -, h, -⟩ | ⟨-, -, -, h, -⟩ | ⟨-, -, h⟩
    · rw [h] at h1
      cases h1
    · rw [h] at h1
      cases h1
    · exact h
  · intro s hs
    simp [onceDoClose, hs]

/-- C5 at a session whose outbound copy ends first, then a window change arrives,
then the inbound copy ends. -/
theorem teardown_at_most_once_witness :
    teardownCount (run (handleChannel ⟨"alice", "session", none, none, 3, none⟩)
      [.toConnectionReturned, .request ⟨"window-change", putUint32 132 ++ putUint32 43⟩,
        .toPtyReturned]) = 1 :=
  (teardown_at_most_once ⟨"alice", "session", none, none, 3, none⟩
    [.toConnectionReturned, .request ⟨"window-change", putUint32 132 ++ putUint32 43⟩,
      .toPtyReturned]).2.1 (by decide) (by decide)

/-- C7 (evaluation at a failing input): on an accepted session channel whose
`pty.Start` fails with `"no pty"`, `handleChannel` logs the failure, enters the
teardown once and closes the channel, and then stops in `bash.Process.Wait()` on
the nil `bash.Process`: the wait never happens, `"Session closed"` is never
logged, and `handleChannel` does not return. No goroutine was started. -/
theorem handleChannel_ptyStart_failure :
    handleChannel ⟨"alice", "session", none, some "no pty", 3, none⟩
      = { trace := [.accept, .logPrintf "alice" [], .logPrint "Creating pty...",
            .ptyStart (createKubeCtlCmd "alice").cmd,
            .logPrintf "Could not start pty (%s)" ["no pty"], .connectionClose]
          launched := false, toConnectionDone := false, toPtyDone := false,
          onceDone := false, crashed := some .nilDereference, fd := 3, waitErr := none } ∧
    teardownCount (handleChannel ⟨"alice", "session", none, some "no pty", 3, none⟩) = 1 ∧
    Effect.processWait
      ∉ (handleChannel ⟨"alice", "session", none, some "no pty", 3, none⟩).trace ∧
    Effect.logPrintf "Session closed" []
      ∉ (handleChannel ⟨"alice", "session", none, some "no pty", 3, none⟩).trace ∧
    (handleChannel ⟨"alice", "session", none, some "no pty", 3, none⟩).crashed
      = some .nilDereference := by
  decide

/-! ## Authentication -/

/-- C9: the callback calls the verifier once, with the user identifier and the
standard base64 encoding of the marshaled key, returns nil permissions, and
returns the verifier's result as its error; so it rejects exactly when the
verifier returns an error. -/
theorem PublicKeyCallback_delegates (verifyUUIDPubKey : String → String → Option String)
    (user : String) (marshaled : List Byte) :
    (PublicKeyCallback verifyUUIDPubKey user marshaled).verifyCalls
      = [(user, encodeToString marshaled)] ∧
    (PublicKeyCallback verifyUUIDPubKey user marshaled).permissions = none ∧
    (PublicKeyCallback verifyUUIDPubKey user marshaled).err
      = verifyUUIDPubKey user (encodeToString marshaled) ∧
    ((PublicKeyCallback verifyUUIDPubKey user marshaled).err ≠ none
      ↔ verifyUUIDPubKey user (encodeToString marshaled) ≠ none) ∧
    (∀ marshaled2, (PublicKeyCallback (fun u _ => if u = "alice" then some "denied" else none)
      "alice" marshaled2).err = some "denied") :=
  ⟨rfl, rfl, rfl, Iff.rfl, fun _ => rfl⟩

end Gond
